import Mathlib

/-!
Shallow embedding of `Display.DisplayEvents`
(`internal/terminalui/dynamicui/display.go`) of the
carbon-black-cloud-container-cli repository.

The Go function consumes a channel of events and renders them to an
append-only terminal frame.  We model a run of `DisplayEvents` on a finite
event stream (the sequence of events delivered before the channel closes).
External I/O results (the error value returned by each frame render, by each
event-handler registration, and by the presenter's `Present` call) are
nondeterministic inputs of the run; we record them as oracle fields on each
event, so that one `Event` value fixes both the event the producers emitted
and the I/O outcomes its handling observes.

Side effects are recorded in a trace of `Action`s so that ordering
properties (barrier waits, renders, cleanup) can be stated.
-/

namespace DynamicUI

/-- Render / registration errors are modelled as their message strings. -/
abbrev Err := String

/-- The event kinds dispatched by the `switch e.Type()` statement of
`DisplayEvents`.  `unknownKind` stands for any bus event type not named in
the switch (it is handled by the `default` arm). -/
inductive EventType
  | newVersionAvailable
  | newMessageDetected
  | validateFinishedSuccessfully
  | newErrorDetected
  | pullDockerImage
  | copyImage
  | readImage
  | fetchImage
  | catalogerStarted
  | scanStarted
  | scanFinished
  | validateFinishedWithViolations
  | catalogerFinished
  | readLayer
  | unknownKind
deriving DecidableEq, Repr

/-- The data a `presenter.Presenter` payload supplies during handling of a
`ScanFinished` / `ValidateFinishedWithViolations` event: its `Title()`,
the error returned by `Present(os.Stdout)` (an oracle for that I/O call),
and its `Footer()`. -/
structure PresenterVal where
  title : String
  presentRes : Option Err
  footer : String
deriving DecidableEq, Repr

/-- One event dequeued from `bus.EventChan()`, together with the oracle
results of the I/O performed while handling it.

* `valueText` — the string rendering of `e.Value()` (as produced by
  `Sprint` / `%v`).
* `errorExit` — `some c` iff the event's dynamic type is `*bus.ErrorEvent`
  with `ExitCode() = c`; `none` means the type assertion
  `e.(*bus.ErrorEvent)` would panic.
* `presVal` — `some p` iff `e.Value()` implements `presenter.Presenter`;
  `none` means the assertion `e.Value().(presenter.Presenter)` would panic.
* `isEnd` — the value of `e.IsEnd()`.
* `renderRes` — result of the `fr.Append().Render(..)` call performed in
  this event's switch arm (the title render for the finished kinds).
* `handlerRes` — result of the `handler.*Handler(fr.Append(), e.Value())`
  registration call (delegated kinds).
* `footerRes` — result of the footer render (finished kinds, only used when
  the footer is non-empty). -/
structure Event where
  type : EventType
  valueText : String
  errorExit : Option Int
  presVal : Option PresenterVal
  isEnd : Bool
  renderRes : Option Err
  handlerRes : Option Err
  footerRes : Option Err
deriving DecidableEq, Repr

/-- Observable side effects of a run, in order.

* `append` — `fr.Append()` : a new line is appended to the frame.
* `render sync msg res` — `.Render(msg)` on the line just appended, with
  result `res`; `sync = true` marks renders issued in a switch arm that
  performs `wg.Wait()` first (the synchronized-render kinds).
* `wait` — `wg.Wait()` : block until every sub-task registered so far has
  called `Done`.
* `register res` — a `handler.*Handler` call registering a concurrent
  sub-task against the wait group, returning `res`.
* `present res` — `pres.Present(os.Stdout)` with result `res`.
* `printErrLine msg` — `fmt.Fprintln(os.Stderr, msg)` in the cleanup.
* `hideCursor` / `showCursor` — cursor visibility control.
* `exitProcess code` — `os.Exit(code)`. -/
inductive Action
  | hideCursor
  | append
  | render (sync : Bool) (msg : String) (res : Option Err)
  | wait
  | register (res : Option Err)
  | present (res : Option Err)
  | printErrLine (msg : String)
  | showCursor
  | exitProcess (code : Int)
deriving DecidableEq, Repr

/-- `color.Magenta.Sprint` : external color library, modelled as a tag. -/
def magentaSprint (s : String) : String := "<magenta>" ++ s ++ "</>"

/-- `color.Bold.Sprint` : external color library, modelled as a tag. -/
def boldSprint (s : String) : String := "<bold>" ++ s ++ "</>"

/-- `color.Red.Sprint` : external color library, modelled as a tag. -/
def redSprint (s : String) : String := "<red>" ++ s ++ "</>"

/-- `fmt.Sprintf("%s %v", color.Red.Sprint("[Error]"), e.Value())`. -/
def errorLine (valueText : String) : String :=
  redSprint "[Error]" ++ " " ++ valueText

/-- `fmt.Errorf("failed to show vulnerability results: %v", err)`. -/
def failedPresentMsg (e : Err) : Err :=
  "failed to show vulnerability results: " ++ e

/-- Result of handling a single dequeued event (one execution of the switch
statement body): the actions performed, the values of the `displayErr` and
`exitCode` variables afterwards, whether a type-assertion panic occurred
(cutting the arm short), and whether the arm ended in `continue` (which
skips the `e.IsEnd() || displayErr != nil` check). -/
structure IterOut where
  tr : List Action
  displayErr : Option Err
  exitCode : Int
  panicked : Bool
  skip : Bool
deriving DecidableEq, Repr

/-- One execution of the body of the `eventLoop` switch statement of
`DisplayEvents`, given the current `displayErr` and `exitCode`. -/
def handleEvent (e : Event) (displayErr : Option Err) (exitCode : Int) :
    IterOut :=
  match e.type with
  | .newVersionAvailable =>
    let msg := magentaSprint e.valueText
    ⟨[.append, .render false msg e.renderRes], e.renderRes, exitCode,
      false, false⟩
  | .newMessageDetected | .validateFinishedSuccessfully =>
    let msg := boldSprint e.valueText
    ⟨[.wait, .append, .render true msg e.renderRes], e.renderRes, exitCode,
      false, false⟩
  | .newErrorDetected =>
    let msg := errorLine e.valueText
    let tr : List Action := [.append, .render false msg e.renderRes]
    match e.errorExit with
    | some c => ⟨tr, e.renderRes, c, false, false⟩
    | none => ⟨tr, e.renderRes, exitCode, true, false⟩
  | .pullDockerImage | .copyImage | .readImage | .fetchImage
  | .catalogerStarted | .scanStarted =>
    ⟨[.append, .register e.handlerRes], e.handlerRes, exitCode, false, false⟩
  | .scanFinished | .validateFinishedWithViolations =>
    match e.presVal with
    | none => ⟨[.wait], displayErr, exitCode, true, false⟩
    | some p =>
      let tr : List Action :=
        [.wait, .append, .append, .render true (boldSprint p.title) e.renderRes,
          .append, .present p.presentRes] ++
        (if p.footer ≠ "" then
          [.append, .render true (boldSprint p.footer) e.footerRes]
        else [])
      let de1 := e.renderRes
      let de2 := match p.presentRes with
        | some er => some (failedPresentMsg er)
        | none => de1
      let de3 := if p.footer ≠ "" then e.footerRes else de2
      ⟨tr, de3, exitCode, false, false⟩
  | .catalogerFinished | .readLayer | .unknownKind =>
    ⟨[], displayErr, exitCode, false, true⟩

/-- Result of the whole `eventLoop`: trace, final `displayErr` and
`exitCode`, whether a panic escaped the loop, whether the loop stopped
early (`break eventLoop` or a panic, as opposed to draining the stream),
and how many events it dequeued. -/
structure LoopOut where
  tr : List Action
  displayErr : Option Err
  exitCode : Int
  panicked : Bool
  stopped : Bool
  consumed : Nat
deriving DecidableEq, Repr

/-- The `eventLoop` of `DisplayEvents` over a finite event stream.  An arm
ending in `continue` (the ignored kinds and the `default` arm) skips the
`if e.IsEnd() || displayErr != nil` check; every other arm falls through to
it, and the loop breaks when it holds. -/
def runLoop : List Event → Option Err → Int → LoopOut
  | [], de, ec => ⟨[], de, ec, false, false, 0⟩
  | e :: rest, de, ec =>
    let it := handleEvent e de ec
    if it.panicked then
      ⟨it.tr, it.displayErr, it.exitCode, true, true, 1⟩
    else if !it.skip && (e.isEnd || it.displayErr.isSome) then
      ⟨it.tr, it.displayErr, it.exitCode, false, true, 1⟩
    else
      let out := runLoop rest it.displayErr it.exitCode
      ⟨it.tr ++ out.tr, out.displayErr, out.exitCode, out.panicked,
        out.stopped, 1 + out.consumed⟩

/-- The `eventLoop` started as `DisplayEvents` starts it:
`displayErr = nil`, `exitCode = 0`. -/
def loopOut (es : List Event) : LoopOut := runLoop es none 0

/-- Modelled from the spec: the exit code of
`cberr.NewError(cberr.DisplayErr, msg, displayErr).ExitCode()` — the
`cberr` package is outside the sources in scope.  Per the spec it is "a
fixed non-zero code distinct from domain error codes" (the generic
display-failure fallback); we fix it as an abstract non-zero constant. -/
def displayErrExitCode : Int := 1

/-- The diagnostic message printed by the cleanup when a display error is
pending. -/
def displayErrMsg : String := "Failed to show the ui during the whole process"

/-- The actions of the deferred cleanup function: `fr.Append()`,
`fr.ShowCursor()`, then — if a display error is pending — the diagnostic
line, and finally `os.Exit` when the (possibly replaced) exit code is
positive. -/
def cleanupTrace (de : Option Err) (finalCode : Int) : List Action :=
  [.append, .showCursor] ++
  (if de.isSome then [.printErrLine displayErrMsg] else []) ++
  (if finalCode > 0 then [.exitProcess finalCode] else [])

/-- Outcome of a whole `DisplayEvents` run: the full trace (cursor hide,
loop, deferred cleanup), the `displayErr` consulted by the cleanup, the
final value of `exitCode` after the cleanup, whether `os.Exit` was called,
whether a type-assertion panic occurred, and the number of events
consumed. -/
structure RunResult where
  trace : List Action
  displayErr : Option Err
  exitCode : Int
  exited : Bool
  panicked : Bool
  consumed : Nat
deriving DecidableEq, Repr

/-- `Display.DisplayEvents` on a finite event stream.  The deferred cleanup
runs on every exit path (normal loop exit and panic alike); when a display
error is pending it replaces `exitCode` with the display-failure code, and
`os.Exit(exitCode)` fires whenever the resulting code is positive. -/
def DisplayEvents (es : List Event) : RunResult :=
  let out := loopOut es
  let finalCode :=
    if out.displayErr.isSome then displayErrExitCode else out.exitCode
  ⟨[Action.hideCursor] ++ out.tr ++ cleanupTrace out.displayErr finalCode,
    out.displayErr, finalCode, decide (finalCode > 0), out.panicked,
    out.consumed⟩

/-- The kinds whose switch arm is `continue` (explicitly ignored kinds and
the `default` arm). -/
def isIgnored : EventType → Bool
  | .catalogerFinished | .readLayer | .unknownKind => true
  | _ => false

/-- The kinds delegated to an `eventhandler` registration call. -/
def isDelegated : EventType → Bool
  | .pullDockerImage | .copyImage | .readImage | .fetchImage
  | .catalogerStarted | .scanStarted => true
  | _ => false

/-- The two result-carrying "finished" kinds. -/
def isFinishedKind : EventType → Bool
  | .scanFinished | .validateFinishedWithViolations => true
  | _ => false

/-- The kinds whose arm performs `wg.Wait()` before rendering. -/
def isSyncKind : EventType → Bool
  | .newMessageDetected | .validateFinishedSuccessfully
  | .scanFinished | .validateFinishedWithViolations => true
  | _ => false

/-- An event on which the unchecked type assertions of `DisplayEvents`
cannot panic: an error event is a `*bus.ErrorEvent`, and a finished event
carries a `presenter.Presenter` value. -/
def wellTypedEvent (e : Event) : Bool :=
  (!(e.type == EventType.newErrorDetected) || e.errorExit.isSome) &&
  (!(isFinishedKind e.type) || e.presVal.isSome)

/-- A stream on which no type assertion of `DisplayEvents` can panic. -/
def wellTyped (es : List Event) : Bool := es.all wellTypedEvent

/-- Number of `present` actions in a trace. -/
def presentCount (tr : List Action) : Nat :=
  (tr.filter fun a => match a with | .present _ => true | _ => false).length

end DynamicUI

namespace DynamicUI

/-! ### Concrete events used in witnesses and counterexamples -/

/-- A plain message event whose render succeeds. -/
def sampleMessageEvent : Event :=
  ⟨.newMessageDetected, "hello", none, none, false, none, none, none⟩

/-- A terminal message event whose render succeeds. -/
def sampleEndMessageEvent : Event :=
  ⟨.newMessageDetected, "done", none, none, true, none, none, none⟩

/-- A non-terminal `*bus.ErrorEvent` with exit code 5 whose render
succeeds. -/
def errorEventNonTerminal : Event :=
  ⟨.newErrorDetected, "disk full", some 5, none, false, none, none, none⟩

/-- A terminal `*bus.ErrorEvent` with exit code 74 whose render succeeds. -/
def errorEventTerminal : Event :=
  ⟨.newErrorDetected, "disk full", some 74, none, true, none, none, none⟩

/-- A terminal `*bus.ErrorEvent` with exit code 74 whose render fails. -/
def errorEventRenderFail : Event :=
  ⟨.newErrorDetected, "disk full", some 74, none, true, some "broken pipe",
    none, none⟩

/-- A terminal explicitly-ignored event. -/
def ignoredEndEvent : Event :=
  ⟨.catalogerFinished, "", none, none, true, none, none, none⟩

/-- A delegated pull-image event whose registration call fails. -/
def pullEventRegisterFail : Event :=
  ⟨.pullDockerImage, "img", none, none, false, none, some "spinner failed",
    none⟩

/-- A terminal scan-finished event whose title render fails but whose
non-empty footer renders fine. -/
def scanFinishedTitleFail : Event :=
  ⟨.scanFinished, "", none, some ⟨"Results", none, "1 critical"⟩, true,
    some "title render failed", none, none⟩

/-- A terminal scan-finished event with all renders succeeding and an empty
footer. -/
def scanFinishedClean : Event :=
  ⟨.scanFinished, "", none, some ⟨"Results", none, ""⟩, true, none, none,
    none⟩

/-- An event of the error kind whose dynamic type is not
`*bus.ErrorEvent`. -/
def badErrorEvent : Event :=
  ⟨.newErrorDetected, "oops", none, none, true, none, none, none⟩

/-- A scan-finished event whose value does not implement
`presenter.Presenter`. -/
def badPresenterEvent : Event :=
  ⟨.scanFinished, "oops", none, none, true, none, none, none⟩

/-! ### Per-event lemmas -/

/-- The switch arm of a non-error kind never assigns `exitCode`. -/
theorem handleEvent_exitCode_frame (e : Event) (de : Option Err) (ec : Int)
    (h : e.type ≠ EventType.newErrorDetected) :
    (handleEvent e de ec).exitCode = ec := by
  rcases e with ⟨t, vt, ee, pv, ie, rr, hr, fr⟩
  cases t <;> simp_all [handleEvent]
  · cases pv <;> simp [handleEvent]
  · cases pv <;> simp [handleEvent]

/-- An arm ends in `continue` exactly for the ignored kinds. -/
theorem handleEvent_skip_iff (e : Event) (de : Option Err) (ec : Int) :
    (handleEvent e de ec).skip = isIgnored e.type := by
  rcases e with ⟨t, vt, ee, pv, ie, rr, hr, fr⟩
  cases t <;> simp [handleEvent, isIgnored]
  · cases ee <;> simp
  · cases pv <;> simp
  · cases pv <;> simp

/-- A `continue` arm changes neither `displayErr` nor `exitCode` and
performs no action. -/
theorem handleEvent_skip_frame (e : Event) (de : Option Err) (ec : Int)
    (h : isIgnored e.type = true) :
    handleEvent e de ec = ⟨[], de, ec, false, true⟩ := by
  rcases e with ⟨t, vt, ee, pv, ie, rr, hr, fr⟩
  cases t <;> simp_all [handleEvent, isIgnored]

/-- On a well-typed event no type assertion panics. -/
theorem handleEvent_no_panic (e : Event) (de : Option Err) (ec : Int)
    (h : wellTypedEvent e = true) :
    (handleEvent e de ec).panicked = false := by
  rcases e with ⟨t, vt, ee, pv, ie, rr, hr, fr⟩
  cases t <;> simp_all [handleEvent, wellTypedEvent, isFinishedKind]
  · cases ee <;> simp_all [handleEvent]
  · cases pv <;> simp_all [handleEvent]
  · cases pv <;> simp_all [handleEvent]

end DynamicUI

namespace DynamicUI

/-! ### Loop-level lemmas -/

/-- If the loop drains `es₁` without breaking, running it on `es₁ ++ es₂`
is running it on `es₁` and continuing on `es₂` from the resulting state. -/
theorem runLoop_append (es₁ es₂ : List Event) (de : Option Err) (ec : Int)
    (h : (runLoop es₁ de ec).stopped = false) :
    runLoop (es₁ ++ es₂) de ec =
      ⟨(runLoop es₁ de ec).tr ++
          (runLoop es₂ (runLoop es₁ de ec).displayErr
            (runLoop es₁ de ec).exitCode).tr,
        (runLoop es₂ (runLoop es₁ de ec).displayErr
          (runLoop es₁ de ec).exitCode).displayErr,
        (runLoop es₂ (runLoop es₁ de ec).displayErr
          (runLoop es₁ de ec).exitCode).exitCode,
        (runLoop es₂ (runLoop es₁ de ec).displayErr
          (runLoop es₁ de ec).exitCode).panicked,
        (runLoop es₂ (runLoop es₁ de ec).displayErr
          (runLoop es₁ de ec).exitCode).stopped,
        (runLoop es₁ de ec).consumed +
          (runLoop es₂ (runLoop es₁ de ec).displayErr
            (runLoop es₁ de ec).exitCode).consumed⟩ := by
  induction es₁ generalizing de ec with
  | nil => simp [runLoop]
  | cons e t ih =>
    by_cases hp : (handleEvent e de ec).panicked = true
    · simp [runLoop, hp] at h
    · by_cases hb : (!(handleEvent e de ec).skip &&
          (e.isEnd || (handleEvent e de ec).displayErr.isSome)) = true
      · simp [runLoop, hp, hb] at h
      · have h' : (runLoop t (handleEvent e de ec).displayErr
            (handleEvent e de ec).exitCode).stopped = false := by
          simpa [runLoop, hp, hb] using h
        simp [runLoop, hp, hb, ih _ _ h', List.append_assoc, Nat.add_assoc]

/-- If the loop drains the stream without breaking and started with no
pending display error, it ends with no pending display error. -/
theorem runLoop_drained_displayErr (es : List Event) (ec : Int)
    (h : (runLoop es none ec).stopped = false) :
    (runLoop es none ec).displayErr = none := by
  induction es generalizing ec with
  | nil => simp [runLoop]
  | cons e t ih =>
    by_cases hp : (handleEvent e none ec).panicked = true
    · simp [runLoop, hp] at h
    · by_cases hb : (!(handleEvent e none ec).skip &&
          (e.isEnd || (handleEvent e none ec).displayErr.isSome)) = true
      · simp [runLoop, hp, hb] at h
      · have hde : (handleEvent e none ec).displayErr = none := by
          by_cases hs : (handleEvent e none ec).skip = true
          · rw [handleEvent_skip_iff] at hs
            rw [handleEvent_skip_frame e none ec hs]
          · simp [hs] at hb
            exact Option.not_isSome_iff_eq_none.mp (by simp [hb.2])
        have h' : (runLoop t (handleEvent e none ec).displayErr
            (handleEvent e none ec).exitCode).stopped = false := by
          simpa [runLoop, hp, hb] using h
        rw [hde] at h'
        have hres := ih ((handleEvent e none ec).exitCode) h'
        have hb' : ¬((handleEvent e none ec).skip = false ∧ e.isEnd = true) := by
          intro hcon
          apply hb
          simp [hcon.1, hcon.2]
        simpa [runLoop, hp, hb, hde, hb'] using hres

/-- No switch arm performs a cleanup action (`showCursor`). -/
theorem handleEvent_no_showCursor (e : Event) (de : Option Err) (ec : Int) :
    Action.showCursor ∉ (handleEvent e de ec).tr := by
  rcases e with ⟨t, vt, ee, pv, ie, rr, hr, fr⟩
  cases t <;> simp [handleEvent]
  · cases ee <;> simp
  · cases pv with
    | none => simp
    | some p =>
      by_cases hf : p.footer = "" <;> simp [hf]
  · cases pv with
    | none => simp
    | some p =>
      by_cases hf : p.footer = "" <;> simp [hf]

/-- The event loop itself never performs a cleanup action
(`showCursor`). -/
theorem runLoop_no_showCursor (es : List Event) (de : Option Err)
    (ec : Int) : Action.showCursor ∉ (runLoop es de ec).tr := by
  induction es generalizing de ec with
  | nil => simp [runLoop]
  | cons e t ih =>
    by_cases hp : (handleEvent e de ec).panicked = true
    · simpa [runLoop, hp] using handleEvent_no_showCursor e de ec
    · by_cases hb : (!(handleEvent e de ec).skip &&
          (e.isEnd || (handleEvent e de ec).displayErr.isSome)) = true
      · simpa [runLoop, hp, hb] using handleEvent_no_showCursor e de ec
      · simp only [runLoop, if_neg hp, if_neg hb, List.mem_append]
        push_neg
        exact ⟨handleEvent_no_showCursor e de ec, ih _ _⟩

end DynamicUI

namespace DynamicUI

/-! ### Completion-barrier model

Modelled from the spec: the `eventhandler` component (outside the sources
in scope) registers each delegated sub-task against the shared
`sync.WaitGroup` and the sub-task signals completion on its own; `wg.Wait()`
joins every sub-task registered so far.  We model the barrier as a counter
of outstanding sub-task registrations: `register` increments it, `wait`
joins (resets) it, and a synchronized render is admissible only when no
registered sub-task is outstanding. -/

/-- One step of the barrier automaton over an action: `n` counts sub-tasks
registered and not yet joined by a `wait`; a synchronized render is
rejected (`none`) if any are outstanding. -/
def syncStep (n : Nat) : Action → Option Nat
  | .wait => some 0
  | .register _ => some (n + 1)
  | .render true _ _ => if n = 0 then some 0 else none
  | _ => some n

/-- Run the barrier automaton over a trace. -/
def syncScan : Nat → List Action → Option Nat
  | n, [] => some n
  | n, a :: tr =>
    match syncStep n a with
    | some m => syncScan m tr
    | none => none

/-- A trace is barrier-safe when no synchronized render happens while a
registered sub-task is outstanding. -/
def syncSafe (tr : List Action) : Bool := (syncScan 0 tr).isSome

theorem syncScan_append (t₁ t₂ : List Action) (n : Nat) :
    syncScan n (t₁ ++ t₂) =
      match syncScan n t₁ with
      | some m => syncScan m t₂
      | none => none := by
  induction t₁ generalizing n with
  | nil => simp [syncScan]
  | cons a t ih =>
    simp only [List.cons_append, syncScan]
    cases syncStep n a with
    | none => simp
    | some m => simpa using ih m

/-- Every switch arm leaves the barrier automaton in a defined state: the
arms that render synchronized lines `wait` first. -/
theorem syncScan_handleEvent (e : Event) (de : Option Err) (ec : Int)
    (n : Nat) : ∃ m, syncScan n (handleEvent e de ec).tr = some m := by
  rcases e with ⟨t, vt, ee, pv, ie, rr, hr, fr⟩
  cases t <;> simp [handleEvent, syncScan, syncStep]
  · cases ee <;> simp [syncScan, syncStep]
  · cases pv with
    | none => simp [syncScan, syncStep]
    | some p =>
      by_cases hf : p.footer = "" <;> simp [hf, syncScan, syncStep]
  · cases pv with
    | none => simp [syncScan, syncStep]
    | some p =>
      by_cases hf : p.footer = "" <;> simp [hf, syncScan, syncStep]

/-- The whole event loop leaves the barrier automaton in a defined state. -/
theorem runLoop_syncScan (es : List Event) (de : Option Err) (ec : Int)
    (n : Nat) : ∃ m, syncScan n (runLoop es de ec).tr = some m := by
  induction es generalizing de ec n with
  | nil => exact ⟨n, by simp [runLoop, syncScan]⟩
  | cons e t ih =>
    by_cases hp : (handleEvent e de ec).panicked = true
    · simpa [runLoop, hp] using syncScan_handleEvent e de ec n
    · by_cases hb : (!(handleEvent e de ec).skip &&
          (e.isEnd || (handleEvent e de ec).displayErr.isSome)) = true
      · simpa [runLoop, hp, hb] using syncScan_handleEvent e de ec n
      · obtain ⟨m, hm⟩ := syncScan_handleEvent e de ec n
        obtain ⟨m', hm'⟩ := ih (handleEvent e de ec).displayErr
          (handleEvent e de ec).exitCode m
        refine ⟨m', ?_⟩
        simp [runLoop, hp, hb, syncScan_append, hm, hm']

/-- The cleanup trace contains no register or synchronized render. -/
theorem syncScan_cleanupTrace (de : Option Err) (c : Int) (n : Nat) :
    syncScan n (cleanupTrace de c) = some n := by
  unfold cleanupTrace
  by_cases h1 : de.isSome <;> by_cases h2 : c > 0 <;>
    simp [h1, h2, syncScan, syncStep]

end DynamicUI

namespace DynamicUI

/-- An event whose handling sees no I/O failure (every render,
registration and present call succeeds), is not of the error kind, and
carries the payload its kind requires (the spec's data model: finished
kinds carry a presenter, error kinds are `*bus.ErrorEvent`s). -/
def cleanEvent (e : Event) : Bool :=
  e.renderRes.isNone && e.handlerRes.isNone && e.footerRes.isNone &&
  (match e.presVal with | some p => p.presentRes.isNone | none => true) &&
  !(e.type == EventType.newErrorDetected) && wellTypedEvent e

/-- Handling a clean event leaves `displayErr` empty (a `continue` arm
leaves it untouched), leaves `exitCode` unchanged and cannot panic. -/
theorem handleEvent_clean (e : Event) (de : Option Err) (ec : Int)
    (h : cleanEvent e = true) :
    (handleEvent e de ec).displayErr =
      (if isIgnored e.type then de else none) ∧
    (handleEvent e de ec).exitCode = ec ∧
    (handleEvent e de ec).panicked = false := by
  rcases e with ⟨t, vt, ee, pv, ie, rr, hr, fr⟩
  simp only [cleanEvent, wellTypedEvent, isFinishedKind, Bool.and_eq_true,
    Bool.not_eq_true'] at h
  rcases pv with _ | p
  · cases t <;> simp_all [handleEvent, isIgnored, Option.isNone_iff_eq_none]
  · cases t <;> by_cases hf : p.footer = "" <;>
      simp_all [handleEvent, isIgnored, Option.isNone_iff_eq_none]

/-- A loop over clean events ends with no pending display error, an
unchanged exit code and no panic. -/
theorem runLoop_clean (es : List Event) (ec : Int)
    (h : es.all cleanEvent = true) :
    (runLoop es none ec).displayErr = none ∧
    (runLoop es none ec).exitCode = ec ∧
    (runLoop es none ec).panicked = false := by
  induction es generalizing ec with
  | nil => simp [runLoop]
  | cons e t ih =>
    rw [List.all_cons, Bool.and_eq_true] at h
    obtain ⟨he, ht⟩ := h
    obtain ⟨hde, hec, hpan⟩ := handleEvent_clean e none ec he
    have hde' : (handleEvent e none ec).displayErr = none := by
      by_cases hi : isIgnored e.type <;> simp [hde, hi]
    by_cases hb : ((handleEvent e none ec).skip = false ∧ e.isEnd = true)
    · simp [runLoop, hpan, hde', hec, hb]
    · have := ih ec ht
      simp [runLoop, hpan, hde', hec, hb, this.1, this.2.1, this.2.2]

end DynamicUI

namespace DynamicUI

/-- A loop that never breaks consumes the whole stream. -/
theorem runLoop_drained_consumed (es : List Event) (de : Option Err)
    (ec : Int) (h : (runLoop es de ec).stopped = false) :
    (runLoop es de ec).consumed = es.length := by
  induction es generalizing de ec with
  | nil => simp [runLoop]
  | cons e t ih =>
    by_cases hp : (handleEvent e de ec).panicked = true
    · simp [runLoop, hp] at h
    · by_cases hb : (!(handleEvent e de ec).skip &&
          (e.isEnd || (handleEvent e de ec).displayErr.isSome)) = true
      · simp [runLoop, hp, hb] at h
      · have h' : (runLoop t (handleEvent e de ec).displayErr
            (handleEvent e de ec).exitCode).stopped = false := by
          simpa [runLoop, hp, hb] using h
        have := ih (handleEvent e de ec).displayErr
          (handleEvent e de ec).exitCode h'
        simp [runLoop, hp, hb, this, Nat.add_comm]

/-- On a well-typed stream the loop never panics. -/
theorem runLoop_wellTyped_no_panic (es : List Event) (de : Option Err)
    (ec : Int) (h : wellTyped es = true) :
    (runLoop es de ec).panicked = false := by
  induction es generalizing de ec with
  | nil => simp [runLoop]
  | cons e t ih =>
    rw [wellTyped, List.all_cons, Bool.and_eq_true] at h
    have hpan := handleEvent_no_panic e de ec h.1
    by_cases hb : (!(handleEvent e de ec).skip &&
        (e.isEnd || (handleEvent e de ec).displayErr.isSome)) = true
    · simp [runLoop, hpan, hb]
    · simp [runLoop, hpan, hb, ih _ _ h.2]

/-- A loop over a stream with no error-kind event leaves `exitCode`
untouched. -/
theorem runLoop_exitCode_frame (es : List Event) (de : Option Err)
    (ec : Int)
    (h : es.all (fun e => !(e.type == EventType.newErrorDetected)) = true) :
    (runLoop es de ec).exitCode = ec := by
  induction es generalizing de ec with
  | nil => simp [runLoop]
  | cons e t ih =>
    rw [List.all_cons, Bool.and_eq_true] at h
    have hec : (handleEvent e de ec).exitCode = ec :=
      handleEvent_exitCode_frame e de ec (by
        intro hcon
        rcases h with ⟨h1, -⟩
        rw [hcon] at h1
        simp at h1)
    by_cases hp : (handleEvent e de ec).panicked = true
    · simp [runLoop, hp, hec]
    · by_cases hb : (!(handleEvent e de ec).skip &&
          (e.isEnd || (handleEvent e de ec).displayErr.isSome)) = true
      · simp [runLoop, hp, hb, hec]
      · simp [runLoop, hp, hb, hec, ih _ _ h.2]

/-- The switch arm of an error event of dynamic type `*bus.ErrorEvent`:
render an error-styled line and capture the event's exit code. -/
theorem handleEvent_error (e : Event) (de : Option Err) (ec c : Int)
    (ht : e.type = EventType.newErrorDetected) (hx : e.errorExit = some c) :
    handleEvent e de ec =
      ⟨[Action.append,
          Action.render false (errorLine e.valueText) e.renderRes],
        e.renderRes, c, false, false⟩ := by
  rcases e with ⟨t, vt, ee, pv, ie, rr, hr, fr⟩
  subst ht
  simp_all [handleEvent]

/-- The switch arm of a delegated sub-task kind: append a line, register
the sub-task, record its result as the display error. -/
theorem handleEvent_delegated (e : Event) (de : Option Err) (ec : Int)
    (h : isDelegated e.type = true) :
    handleEvent e de ec =
      ⟨[Action.append, Action.register e.handlerRes], e.handlerRes, ec,
        false, false⟩ := by
  rcases e with ⟨t, vt, ee, pv, ie, rr, hr, fr⟩
  cases t <;> simp_all [handleEvent, isDelegated]

end DynamicUI

namespace DynamicUI

/-- C2: for every event stream ending in a terminal event, containing no
error-detected event, and in which every render write succeeds,
`DisplayEvents` runs the cleanup exactly once (one final blank line then
cursor restore, with no cleanup action inside the loop), records no
display error, and returns normally with exit code 0 and no process
termination. -/
theorem C2_clean_terminal_stream_returns_zero (es : List Event)
    (h1 : es.all cleanEvent = true)
    (h2 : es.getLast?.map Event.isEnd = some true) :
    (DisplayEvents es).exitCode = 0 ∧
    (DisplayEvents es).exited = false ∧
    (DisplayEvents es).panicked = false ∧
    (DisplayEvents es).displayErr = none ∧
    (DisplayEvents es).trace =
      Action.hideCursor ::
        ((loopOut es).tr ++ [Action.append, Action.showCursor]) ∧
    Action.showCursor ∉ (loopOut es).tr := by
  obtain ⟨hde, hec, hpan⟩ := runLoop_clean es 0 h1
  refine ⟨?_, ?_, ?_, ?_, ?_, ?_⟩
  · simp [DisplayEvents, loopOut, hde, hec]
  · simp [DisplayEvents, loopOut, hde, hec]
  · simp [DisplayEvents, loopOut, hpan]
  · simp [DisplayEvents, loopOut, hde]
  · simp [DisplayEvents, loopOut, hde, hec, cleanupTrace]
  · exact runLoop_no_showCursor es none 0

/-- C3: in every run of `DisplayEvents`, no synchronized render (the
message-detected, validate-succeeded, scan-finished and
validate-with-violations kinds) is performed while a sub-task registered
by an earlier event is still outstanding: each such arm waits on the
completion barrier first, and the wait joins every sub-task registered so
far. -/
theorem C3_sync_render_waits_for_subtasks (es : List Event) :
    syncSafe (DisplayEvents es).trace = true := by
  obtain ⟨m, hm⟩ := runLoop_syncScan es none 0 0
  unfold syncSafe DisplayEvents
  simp only [loopOut] at hm ⊢
  by_cases h1 : (runLoop es none 0).displayErr.isSome = true <;>
    by_cases h3 : (0 : Int) < (runLoop es none 0).exitCode <;>
    simp [syncScan, syncStep, syncScan_append, hm, cleanupTrace, h1, h3,
      displayErrExitCode]

/-- C8: for every scan-finished or validate-with-violations event carrying
a presenter, the arm appends a title line, invokes the presenter's result
output exactly once, and appends a footer line iff the footer text is
non-empty. -/
theorem C8_finished_arm_render_shape (e : Event) (de : Option Err)
    (ec : Int) (p : PresenterVal) (hk : isFinishedKind e.type = true)
    (hp : e.presVal = some p) :
    (handleEvent e de ec).tr =
      [Action.wait, Action.append, Action.append,
        Action.render true (boldSprint p.title) e.renderRes,
        Action.append, Action.present p.presentRes] ++
      (if p.footer ≠ "" then
        [Action.append, Action.render true (boldSprint p.footer) e.footerRes]
      else []) ∧
    presentCount (handleEvent e de ec).tr = 1 := by
  rcases e with ⟨t, vt, ee, pv, ie, rr, hr, fr⟩
  cases t <;> simp_all [isFinishedKind] <;>
    by_cases hf : p.footer = "" <;>
    simp_all [handleEvent, presentCount]

/-- C8 witness: concrete terminal scan-finished event with empty footer. -/
theorem C8_finished_arm_render_shape_witness :
    isFinishedKind scanFinishedClean.type = true ∧
    scanFinishedClean.presVal = some ⟨"Results", none, ""⟩ ∧
    ((handleEvent scanFinishedClean none 0).tr =
      [Action.wait, Action.append, Action.append,
        Action.render true (boldSprint "Results") scanFinishedClean.renderRes,
        Action.append, Action.present none] ++
      (if ("" : String) ≠ "" then
        [Action.append,
          Action.render true (boldSprint "") scanFinishedClean.footerRes]
      else []) ∧
    presentCount (handleEvent scanFinishedClean none 0).tr = 1) :=
  ⟨by decide, by decide,
    C8_finished_arm_render_shape scanFinishedClean none 0
      ⟨"Results", none, ""⟩ (by decide) (by decide)⟩

/-- C9: `DisplayEvents` cannot hit a type-assertion panic on streams where
every error event is a `*bus.ErrorEvent` and every finished event carries
a presenter; streams violating either precondition make it panic. -/
theorem C9_totality_needs_welltyped_stream :
    (∀ es, wellTyped es = true → (DisplayEvents es).panicked = false) ∧
    (wellTyped [badErrorEvent] = false ∧
      (DisplayEvents [badErrorEvent]).panicked = true) ∧
    (wellTyped [badPresenterEvent] = false ∧
      (DisplayEvents [badPresenterEvent]).panicked = true) := by
  refine ⟨?_, ⟨by decide, by decide⟩, ⟨by decide, by decide⟩⟩
  intro es h
  simp [DisplayEvents, loopOut, runLoop_wellTyped_no_panic es none 0 h]

/-- C9 witness: the no-panic direction applied to a concrete well-typed
stream. -/
theorem C9_totality_needs_welltyped_stream_witness :
    (DisplayEvents [sampleMessageEvent]).panicked = false :=
  C9_totality_needs_welltyped_stream.1 [sampleMessageEvent] (by decide)

/-- C10: the exit code (initialized to 0) is only assigned by the
error-detected arm during consumption — every other arm leaves it
unchanged, and a stream with no error event leaves it 0 — and after the
loop it changes only in cleanup and only when a display error is
pending. -/
theorem C10_exitCode_only_error_arm_and_cleanup :
    (∀ e de ec, e.type ≠ EventType.newErrorDetected →
      (handleEvent e de ec).exitCode = ec) ∧
    (∀ es,
      es.all (fun e => !(e.type == EventType.newErrorDetected)) = true →
      (loopOut es).exitCode = 0) ∧
    (∀ es, (loopOut es).displayErr = none →
      (DisplayEvents es).exitCode = (loopOut es).exitCode) := by
  refine ⟨handleEvent_exitCode_frame, ?_, ?_⟩
  · intro es h
    exact runLoop_exitCode_frame es none 0 h
  · intro es h
    simp [DisplayEvents, h]

/-- C10 witness: the three parts at concrete inputs. -/
theorem C10_exitCode_only_error_arm_and_cleanup_witness :
    (handleEvent sampleMessageEvent none 0).exitCode = 0 ∧
    (loopOut [sampleMessageEvent]).exitCode = 0 ∧
    (DisplayEvents [sampleMessageEvent]).exitCode =
      (loopOut [sampleMessageEvent]).exitCode :=
  ⟨C10_exitCode_only_error_arm_and_cleanup.1 sampleMessageEvent none 0
      (by decide),
    C10_exitCode_only_error_arm_and_cleanup.2.1 [sampleMessageEvent]
      (by decide),
    C10_exitCode_only_error_arm_and_cleanup.2.2 [sampleMessageEvent]
      (by decide)⟩

end DynamicUI

namespace DynamicUI

/-- C2 witness: a single clean terminal message event. -/
theorem C2_clean_terminal_stream_returns_zero_witness :
    (DisplayEvents [sampleEndMessageEvent]).exitCode = 0 ∧
    (DisplayEvents [sampleEndMessageEvent]).exited = false ∧
    (DisplayEvents [sampleEndMessageEvent]).panicked = false ∧
    (DisplayEvents [sampleEndMessageEvent]).displayErr = none ∧
    (DisplayEvents [sampleEndMessageEvent]).trace =
      Action.hideCursor ::
        ((loopOut [sampleEndMessageEvent]).tr ++
          [Action.append, Action.showCursor]) ∧
    Action.showCursor ∉ (loopOut [sampleEndMessageEvent]).tr :=
  C2_clean_terminal_stream_returns_zero [sampleEndMessageEvent]
    (by decide) (by decide)

/-- C1 counterexample: a non-terminal error event (code 5) whose render
succeeds does not stop the loop — a following message event is also
consumed, refuting "stops consuming at that error event regardless of the
terminal flag". -/
theorem C1_counterexample_nonterminal_error_continues :
    errorEventNonTerminal.type = EventType.newErrorDetected ∧
    errorEventNonTerminal.errorExit = some 5 ∧
    (5 : Int) > 0 ∧
    errorEventNonTerminal.isEnd = false ∧
    (loopOut [errorEventNonTerminal, sampleMessageEvent]).consumed = 2 := by
  decide

/-- C1 (amended): when the loop reaches an error event with exit code
`c > 0` that is terminal and whose render succeeds, it stops consuming at
that event and the process terminates with exit code `c`. -/
theorem C1_amended_terminal_error_stops_with_code (es₁ es₂ : List Event)
    (e : Event) (c : Int)
    (hreach : (runLoop es₁ none 0).stopped = false)
    (ht : e.type = EventType.newErrorDetected)
    (hx : e.errorExit = some c) (hc : 0 < c)
    (hr : e.renderRes = none) (hend : e.isEnd = true) :
    (loopOut (es₁ ++ e :: es₂)).consumed = es₁.length + 1 ∧
    (DisplayEvents (es₁ ++ e :: es₂)).exitCode = c ∧
    (DisplayEvents (es₁ ++ e :: es₂)).exited = true := by
  have happ := runLoop_append es₁ (e :: es₂) none 0 hreach
  have hcons := runLoop_drained_consumed es₁ none 0 hreach
  have hiter := handleEvent_error e (runLoop es₁ none 0).displayErr
    (runLoop es₁ none 0).exitCode c ht hx
  have hstep : runLoop (e :: es₂) (runLoop es₁ none 0).displayErr
      (runLoop es₁ none 0).exitCode =
      ⟨[Action.append,
          Action.render false (errorLine e.valueText) e.renderRes],
        e.renderRes, c, false, true, 1⟩ := by
    rw [runLoop, hiter]
    simp [hend, hr]
  refine ⟨?_, ?_, ?_⟩
  · simp [loopOut, happ, hstep, hcons]
  · simp [DisplayEvents, loopOut, happ, hstep, hr]
  · simp [DisplayEvents, loopOut, happ, hstep, hr, hc]

/-- C1 witness: single terminal error event, exit code 74, render ok. -/
theorem C1_amended_terminal_error_stops_with_code_witness :
    (0 : Int) < 74 ∧
    ((loopOut ([] ++ errorEventTerminal :: [])).consumed =
      List.length ([] : List Event) + 1 ∧
    (DisplayEvents ([] ++ errorEventTerminal :: [])).exitCode = 74 ∧
    (DisplayEvents ([] ++ errorEventTerminal :: [])).exited = true) :=
  ⟨by decide,
    C1_amended_terminal_error_stops_with_code [] [] errorEventTerminal 74
      (by decide) (by decide) (by decide) (by decide) (by decide)
      (by decide)⟩

end DynamicUI

namespace DynamicUI

/-- C4 counterexample: a terminal error event with exit code 74 whose own
render fails — the process exits with the generic display-failure code,
not the captured 74, refuting "the final process exit code is still the
exit code captured from the error event". -/
theorem C4_counterexample_display_code_replaces_captured :
    errorEventRenderFail.type = EventType.newErrorDetected ∧
    errorEventRenderFail.errorExit = some 74 ∧
    errorEventRenderFail.renderRes.isSome = true ∧
    (DisplayEvents [errorEventRenderFail]).exitCode = displayErrExitCode ∧
    displayErrExitCode ≠ 74 := by
  decide

/-- C4 (amended): if the render performed while handling an error event
fails, the loop aborts and the pending display error is overwritten with
that render failure; the captured exit code survives the loop, but the
cleanup, seeing the pending display error, replaces it with the generic
display-failure code, so the process exits with that code instead. -/
theorem C4_amended_error_render_failure_aborts (es₁ es₂ : List Event)
    (e : Event) (c : Int) (r : Err)
    (hreach : (runLoop es₁ none 0).stopped = false)
    (ht : e.type = EventType.newErrorDetected)
    (hx : e.errorExit = some c) (hr : e.renderRes = some r) :
    (loopOut (es₁ ++ e :: es₂)).consumed = es₁.length + 1 ∧
    (loopOut (es₁ ++ e :: es₂)).displayErr = some r ∧
    (loopOut (es₁ ++ e :: es₂)).exitCode = c ∧
    (DisplayEvents (es₁ ++ e :: es₂)).exitCode = displayErrExitCode := by
  have happ := runLoop_append es₁ (e :: es₂) none 0 hreach
  have hcons := runLoop_drained_consumed es₁ none 0 hreach
  have hiter := handleEvent_error e (runLoop es₁ none 0).displayErr
    (runLoop es₁ none 0).exitCode c ht hx
  have hstep : runLoop (e :: es₂) (runLoop es₁ none 0).displayErr
      (runLoop es₁ none 0).exitCode =
      ⟨[Action.append,
          Action.render false (errorLine e.valueText) e.renderRes],
        e.renderRes, c, false, true, 1⟩ := by
    rw [runLoop, hiter]
    simp [hr]
  refine ⟨?_, ?_, ?_, ?_⟩
  · simp [loopOut, happ, hstep, hcons]
  · simp [loopOut, happ, hstep, hr]
  · simp [loopOut, happ, hstep]
  · simp [DisplayEvents, loopOut, happ, hstep, hr]

/-- C4 witness: the single failing error event. -/
theorem C4_amended_error_render_failure_aborts_witness :
    (loopOut ([] ++ errorEventRenderFail :: [])).consumed =
      List.length ([] : List Event) + 1 ∧
    (loopOut ([] ++ errorEventRenderFail :: [])).displayErr =
      some "broken pipe" ∧
    (loopOut ([] ++ errorEventRenderFail :: [])).exitCode = 74 ∧
    (DisplayEvents ([] ++ errorEventRenderFail :: [])).exitCode =
      displayErrExitCode :=
  C4_amended_error_render_failure_aborts [] [] errorEventRenderFail 74
    "broken pipe" (by decide) (by decide) (by decide) (by decide)

/-- C5 counterexample: a terminal explicitly-ignored event (its `IsEnd`
flag set) does not stop the loop — the following message event is also
consumed — refuting "including events of unrecognized or
explicitly-ignored kinds ... if the event's terminal flag is set, the loop
stops consuming further events". -/
theorem C5_counterexample_ignored_terminal_continues :
    ignoredEndEvent.isEnd = true ∧
    isIgnored ignoredEndEvent.type = true ∧
    (loopOut [ignoredEndEvent, sampleMessageEvent]).consumed = 2 := by
  decide

/-- C5 (amended): a terminal event of a handled (non-ignored, recognized)
kind stops consumption after it is handled; an event of an ignored or
unrecognized kind skips the terminal-flag check (its arm ends in
`continue`), so its terminal flag never stops the loop. -/
theorem C5_amended_terminal_check_skipped_for_ignored
    (es₁ es₂ : List Event) (e : Event)
    (hreach : (runLoop es₁ none 0).stopped = false)
    (hend : e.isEnd = true) :
    (isIgnored e.type = false →
      (loopOut (es₁ ++ e :: es₂)).consumed = es₁.length + 1) ∧
    (isIgnored e.type = true →
      (loopOut (es₁ ++ e :: es₂)).consumed =
        es₁.length + 1 +
          (runLoop es₂ (runLoop es₁ none 0).displayErr
            (runLoop es₁ none 0).exitCode).consumed) := by
  have happ := runLoop_append es₁ (e :: es₂) none 0 hreach
  have hcons := runLoop_drained_consumed es₁ none 0 hreach
  constructor
  · intro hni
    have hskip : (handleEvent e (runLoop es₁ none 0).displayErr
        (runLoop es₁ none 0).exitCode).skip = false := by
      rw [handleEvent_skip_iff, hni]
    have hstep : (runLoop (e :: es₂) (runLoop es₁ none 0).displayErr
        (runLoop es₁ none 0).exitCode).consumed = 1 := by
      rw [runLoop]
      by_cases hp : (handleEvent e (runLoop es₁ none 0).displayErr
          (runLoop es₁ none 0).exitCode).panicked = true
      · simp [hp]
      · simp [hp, hskip, hend]
    simp [loopOut, happ, hcons, hstep]
  · intro hi
    have hskip := handleEvent_skip_frame e (runLoop es₁ none 0).displayErr
      (runLoop es₁ none 0).exitCode hi
    have hstep : (runLoop (e :: es₂) (runLoop es₁ none 0).displayErr
        (runLoop es₁ none 0).exitCode).consumed =
        1 + (runLoop es₂ (runLoop es₁ none 0).displayErr
          (runLoop es₁ none 0).exitCode).consumed := by
      rw [runLoop, hskip]
      simp
    simp [loopOut, happ, hcons, hstep, Nat.add_assoc]

/-- C5 witness: both branches at concrete inputs (a handled terminal
message event stops; an ignored terminal event lets the next event be
consumed). -/
theorem C5_amended_terminal_check_skipped_for_ignored_witness :
    ((isIgnored sampleEndMessageEvent.type = false →
      (loopOut ([] ++ sampleEndMessageEvent :: [sampleMessageEvent])).consumed =
        List.length ([] : List Event) + 1) ∧
    (isIgnored sampleEndMessageEvent.type = true →
      (loopOut ([] ++ sampleEndMessageEvent :: [sampleMessageEvent])).consumed =
        List.length ([] : List Event) + 1 +
          (runLoop [sampleMessageEvent] (runLoop [] none 0).displayErr
            (runLoop [] none 0).exitCode).consumed)) ∧
    ((isIgnored ignoredEndEvent.type = false →
      (loopOut ([] ++ ignoredEndEvent :: [sampleMessageEvent])).consumed =
        List.length ([] : List Event) + 1) ∧
    (isIgnored ignoredEndEvent.type = true →
      (loopOut ([] ++ ignoredEndEvent :: [sampleMessageEvent])).consumed =
        List.length ([] : List Event) + 1 +
          (runLoop [sampleMessageEvent] (runLoop [] none 0).displayErr
            (runLoop [] none 0).exitCode).consumed)) :=
  ⟨C5_amended_terminal_check_skipped_for_ignored [] [sampleMessageEvent]
      sampleEndMessageEvent (by decide) (by decide),
    C5_amended_terminal_check_skipped_for_ignored [] [sampleMessageEvent]
      ignoredEndEvent (by decide) (by decide)⟩

end DynamicUI

namespace DynamicUI

/-- C6 counterexample: a pull-image event whose registration call fails —
the loop stops after it (the queued message event is never consumed),
refuting "the main loop does not abort: it continues consuming subsequent
events". -/
theorem C6_counterexample_register_error_aborts :
    isDelegated pullEventRegisterFail.type = true ∧
    pullEventRegisterFail.handlerRes = some "spinner failed" ∧
    pullEventRegisterFail.isEnd = false ∧
    (loopOut [pullEventRegisterFail, sampleMessageEvent]).consumed = 1 := by
  decide

/-- C6 (amended): when the registration call for a delegated sub-task kind
returns an error, the error is recorded as the display error and the main
loop aborts — it stops consuming after that event, and the cleanup makes
the process exit with the generic display-failure code. -/
theorem C6_amended_register_error_stops_loop (es₁ es₂ : List Event)
    (e : Event) (r : Err)
    (hreach : (runLoop es₁ none 0).stopped = false)
    (hd : isDelegated e.type = true) (hr : e.handlerRes = some r) :
    (loopOut (es₁ ++ e :: es₂)).consumed = es₁.length + 1 ∧
    (loopOut (es₁ ++ e :: es₂)).displayErr = some r ∧
    (DisplayEvents (es₁ ++ e :: es₂)).exitCode = displayErrExitCode := by
  have happ := runLoop_append es₁ (e :: es₂) none 0 hreach
  have hcons := runLoop_drained_consumed es₁ none 0 hreach
  have hiter := handleEvent_delegated e (runLoop es₁ none 0).displayErr
    (runLoop es₁ none 0).exitCode hd
  have hstep : runLoop (e :: es₂) (runLoop es₁ none 0).displayErr
      (runLoop es₁ none 0).exitCode =
      ⟨[Action.append, Action.register e.handlerRes], e.handlerRes,
        (runLoop es₁ none 0).exitCode, false, true, 1⟩ := by
    rw [runLoop, hiter]
    simp [hr]
  refine ⟨?_, ?_, ?_⟩
  · simp [loopOut, happ, hstep, hcons]
  · simp [loopOut, happ, hstep, hr]
  · simp [DisplayEvents, loopOut, happ, hstep, hr]

/-- C6 witness: the single failing pull-image event. -/
theorem C6_amended_register_error_stops_loop_witness :
    (loopOut ([] ++ pullEventRegisterFail :: [sampleMessageEvent])).consumed =
      List.length ([] : List Event) + 1 ∧
    (loopOut ([] ++ pullEventRegisterFail :: [sampleMessageEvent])).displayErr =
      some "spinner failed" ∧
    (DisplayEvents
        ([] ++ pullEventRegisterFail :: [sampleMessageEvent])).exitCode =
      displayErrExitCode :=
  C6_amended_register_error_stops_loop [] [sampleMessageEvent]
    pullEventRegisterFail "spinner failed" (by decide) (by decide)
    (by decide)

/-- C7 counterexample: a scan-finished event whose title render fails but
whose non-empty footer renders successfully — at cleanup no display error
is pending and the exit code is 0, refuting "a title-render or presenter
failure ... remains recorded as the display error at cleanup even when a
later footer render in the same iteration succeeds". -/
theorem C7_counterexample_footer_success_clears_failure :
    scanFinishedTitleFail.renderRes = some "title render failed" ∧
    scanFinishedTitleFail.presVal.map PresenterVal.footer =
      some "1 critical" ∧
    scanFinishedTitleFail.footerRes = none ∧
    (DisplayEvents [scanFinishedTitleFail]).displayErr = none ∧
    (DisplayEvents [scanFinishedTitleFail]).exitCode = 0 := by
  decide

/-- C7 (amended): every render result — failure or success — is written to
the single display-error slot, last write wins.  For a finished-kind event
the slot afterwards holds the footer render's result when the footer is
non-empty (so a successful footer render clears an earlier title or
presenter failure), otherwise the wrapped presenter error if `Present`
failed, otherwise the title render's result; for a delegated kind it holds
the registration result, and for the direct-render kinds the render's
result. -/
theorem C7_amended_display_error_last_write_wins (e : Event)
    (de : Option Err) (ec : Int) :
    (∀ p, isFinishedKind e.type = true → e.presVal = some p →
      (handleEvent e de ec).displayErr =
        (if p.footer ≠ "" then e.footerRes
          else match p.presentRes with
            | some er => some (failedPresentMsg er)
            | none => e.renderRes)) ∧
    (isDelegated e.type = true →
      (handleEvent e de ec).displayErr = e.handlerRes) ∧
    ((e.type = EventType.newVersionAvailable ∨
      e.type = EventType.newMessageDetected ∨
      e.type = EventType.validateFinishedSuccessfully ∨
      e.type = EventType.newErrorDetected) →
      (handleEvent e de ec).displayErr = e.renderRes) := by
  refine ⟨?_, ?_, ?_⟩
  · intro p hk hp
    rcases e with ⟨t, vt, ee, pv, ie, rr, hr, fr⟩
    cases t <;> simp_all [isFinishedKind] <;>
      by_cases hf : p.footer = "" <;> simp_all [handleEvent]
  · intro hd
    rw [handleEvent_delegated e de ec hd]
  · intro hdir
    rcases e with ⟨t, vt, ee, pv, ie, rr, hr, fr⟩
    rcases hdir with h | h | h | h <;> rw [show t = _ from h] <;>
      simp [handleEvent]
    cases ee <;> simp [handleEvent]

/-- C7 witness: the finished-kind part at the concrete title-failure
event. -/
theorem C7_amended_display_error_last_write_wins_witness :
    isFinishedKind scanFinishedTitleFail.type = true ∧
    scanFinishedTitleFail.presVal = some ⟨"Results", none, "1 critical"⟩ ∧
    (handleEvent scanFinishedTitleFail none 0).displayErr =
      (if ("1 critical" : String) ≠ "" then scanFinishedTitleFail.footerRes
        else match (none : Option Err) with
          | some er => some (failedPresentMsg er)
          | none => scanFinishedTitleFail.renderRes) :=
  ⟨by decide, by decide,
    (C7_amended_display_error_last_write_wins scanFinishedTitleFail
        none 0).1 ⟨"Results", none, "1 critical"⟩ (by decide) (by decide)⟩

end DynamicUI
